import Mathlib

/-!
Verification of the `rururu-color` color-management daemon
(`src/packages/rururu-color/src/{config,icc,monitor,hdr,dbus}.rs`).

Shallow embedding conventions:
* Filesystem paths are lists of components (`FsPath := List String`).
* Byte buffers are `List ℕ` (Rust `Vec<u8>`; bitwise ops are exact on ℕ).
* Stateful Rust methods (`&mut self`) become explicit state passing:
  a function returns the result together with the new state.
* `f32`/`f64` configuration fields that the claims never compute with are
  modelled as ℚ; the PQ transfer functions, whose numeric behaviour is the
  subject of a claim, are modelled over ℝ with `Real.rpow` standing for
  `f32::powf`.
* The external `toml::from_str` deserializer is a parameter of
  `ColorConfig.load`; `toml_reject` is one concrete instantiation that fails
  on every input (any unparsable content behaves this way).
-/

set_option maxRecDepth 20000

deriving instance DecidableEq for Except

abbrev FsPath := List String

/-- The `ColorError` from `lib.rs`. -/
inductive ColorError where
  | IccError : String → ColorError
  | OcioError : String → ColorError
  | MonitorNotFound : String → ColorError
  | HdrNotSupported : ColorError
  | Io : String → ColorError
  | Config : String → ColorError
deriving DecidableEq

/-- The `RenderingIntent` from `config.rs`. -/
inductive RenderingIntent where
  | Perceptual
  | RelativeColorimetric
  | Saturation
  | AbsoluteColorimetric
deriving DecidableEq

/-- The `GlobalColorSettings` from `config.rs`. -/
structure GlobalColorSettings where
  enabled : Bool
  default_profile : String
  rendering_intent : RenderingIntent
  black_point_compensation : Bool
  gamut_warning : Bool
  soft_proofing : Bool
deriving DecidableEq

/-- The `MonitorColorConfig` from `config.rs` (`f32` fields as ℚ). -/
structure MonitorColorConfig where
  edid_name : String
  icc_profile : Option FsPath
  calibration_date : Option String
  brightness : ℚ
  contrast : ℚ
  gamma : ℚ
  white_point : ℕ
  hdr_enabled : Bool
  hdr_peak_luminance : Option ℕ
deriving DecidableEq

/-- The `OcioConfig` from `config.rs`. -/
structure OcioConfig where
  config_path : FsPath
  working_space : String
  display_space : String
  view_transform : String
  look : Option String
deriving DecidableEq

/-- The `WorkflowColorConfig` from `config.rs`. -/
structure WorkflowColorConfig where
  name : String
  working_space : String
  ocio_config : Option FsPath
  default_intent : RenderingIntent
  soft_proof_profile : Option FsPath
deriving DecidableEq

/-- The `ColorConfig` from `config.rs`. The two `HashMap<String, _>` fields are
association lists keyed by the string. -/
structure ColorConfig where
  version : ℕ
  global : GlobalColorSettings
  monitors : List (String × MonitorColorConfig)
  ocio : Option OcioConfig
  workflows : List (String × WorkflowColorConfig)
deriving DecidableEq

/-- The `default_workflows()` from `config.rs`: the five built-in workflows in
their insertion order. -/
def default_workflows : List (String × WorkflowColorConfig) :=
  [ ("photography",
     { name := "Photography"
       working_space := "ProPhoto RGB"
       ocio_config := none
       default_intent := RenderingIntent.Perceptual
       soft_proof_profile := none }),
    ("video",
     { name := "Video Editing"
       working_space := "Rec.709"
       ocio_config := some ["usr", "share", "ocio", "aces_1.2", "config.ocio"]
       default_intent := RenderingIntent.RelativeColorimetric
       soft_proof_profile := none }),
    ("vfx",
     { name := "VFX / 3D"
       working_space := "ACEScg"
       ocio_config := some ["usr", "share", "ocio", "aces_1.2", "config.ocio"]
       default_intent := RenderingIntent.RelativeColorimetric
       soft_proof_profile := none }),
    ("print",
     { name := "Print Design"
       working_space := "Adobe RGB"
       ocio_config := none
       default_intent := RenderingIntent.RelativeColorimetric
       soft_proof_profile := some ["usr", "share", "color", "icc", "Fogra39.icc"] }),
    ("web",
     { name := "Web Design"
       working_space := "sRGB"
       ocio_config := none
       default_intent := RenderingIntent.Perceptual
       soft_proof_profile := none }) ]

/-- The `ColorConfig::default()` from `config.rs`. -/
def ColorConfig.default : ColorConfig :=
  { version := 1
    global :=
      { enabled := true
        default_profile := "sRGB"
        rendering_intent := RenderingIntent.Perceptual
        black_point_compensation := true
        gamut_warning := false
        soft_proofing := false }
    monitors := []
    ocio := none
    workflows := default_workflows }

/-- The `ColorConfig::load()` from `config.rs`. The stored file is `none` when
`config_path.exists()` is false and `some content` otherwise; the external
`toml::from_str::<ColorConfig>` deserializer is passed in as `toml_from_str`
(its error is mapped into `ColorError::Config`, exactly as in the source). -/
def ColorConfig.load (file : Option String)
    (toml_from_str : String → Except String ColorConfig) :
    Except ColorError ColorConfig :=
  match file with
  | some content =>
    match toml_from_str content with
    | Except.ok c => Except.ok c
    | Except.error e => Except.error (ColorError.Config e)
  | none => Except.ok ColorConfig.default

/-- The `ColorService::init()` from `dbus.rs`, restricted to its config step:
`let config = ColorConfig::load()?` propagates any load error, failing init.
(The remaining init steps — profile scan, monitor detect, HDR detect — are
infallible in the source: `scan_profiles` returns `()` and both detect
functions always return `Ok`.) -/
def ColorService.init (file : Option String)
    (toml_from_str : String → Except String ColorConfig) :
    Except ColorError Unit :=
  match ColorConfig.load file toml_from_str with
  | Except.ok _ => Except.ok ()
  | Except.error e => Except.error e

/-- A concrete instantiation of the external TOML deserializer that rejects
every input, as `toml::from_str::<ColorConfig>` does on any unparsable
content. -/
def toml_reject (_s : String) : Except String ColorConfig :=
  Except.error "expected an equals, found an identifier"

/-- The `ColorSpace` from `icc.rs`. -/
inductive ColorSpace where
  | RGB
  | CMYK
  | Gray
  | Lab
  | XYZ
  | Unknown
deriving DecidableEq

/-- The `ProfileClass` from `icc.rs` (field spelled `profileClass` below). -/
inductive ProfileClass where
  | Input
  | Display
  | Output
  | DeviceLink
  | ColorSpace
  | Abstract
  | NamedColor
  | Unknown
deriving DecidableEq

/-- The `IccProfile` from `icc.rs` (`white_point : (f64, f64, f64)` as ℚ triple). -/
structure IccProfile where
  path : FsPath
  name : String
  description : String
  color_space : ColorSpace
  profileClass : ProfileClass
  white_point : ℚ × ℚ × ℚ
  copyright : Option String
deriving DecidableEq

/-- A directory entry seen by `scan_directory`: the Rust `Path` of the file,
pre-split into `file_stem()` and `extension()` (Rust: the part after the last
dot, `none` when there is no dot), plus the byte content `fs::read` returns. -/
structure ScanFile where
  stem : String
  ext : Option String
  data : List ℕ
deriving DecidableEq

/-- The file name of a `ScanFile` (stem rejoined with its extension). -/
def ScanFile.fileName (f : ScanFile) : String :=
  f.stem ++ (match f.ext with | some e => "." ++ e | none => "")

/-- The declared big-endian 32-bit profile size at offset 0
(`u32::from_be_bytes([data[0], data[1], data[2], data[3]])`). -/
def icc_declared_size (data : List ℕ) : ℕ :=
  (((data.getD 0 0) <<< 24) ||| ((data.getD 1 0) <<< 16)) |||
    (((data.getD 2 0) <<< 8) ||| data.getD 3 0)

/-- The color space signature at offset 16 (`&data[16..20]` against the five
four-byte ASCII tags of `icc.rs`). -/
def icc_color_space (data : List ℕ) : ColorSpace :=
  match data.getD 16 0, data.getD 17 0, data.getD 18 0, data.getD 19 0 with
  | 82, 71, 66, 32 => ColorSpace.RGB
  | 67, 77, 89, 75 => ColorSpace.CMYK
  | 71, 82, 65, 89 => ColorSpace.Gray
  | 76, 97, 98, 32 => ColorSpace.Lab
  | 88, 89, 90, 32 => ColorSpace.XYZ
  | _, _, _, _ => ColorSpace.Unknown

/-- The profile class signature at offset 12 (`&data[12..16]` against the
seven four-byte ASCII tags of `icc.rs`). -/
def icc_profile_class (data : List ℕ) : ProfileClass :=
  match data.getD 12 0, data.getD 13 0, data.getD 14 0, data.getD 15 0 with
  | 115, 99, 110, 114 => ProfileClass.Input
  | 109, 110, 116, 114 => ProfileClass.Display
  | 112, 114, 116, 114 => ProfileClass.Output
  | 108, 105, 110, 107 => ProfileClass.DeviceLink
  | 115, 112, 97, 99 => ProfileClass.ColorSpace
  | 97, 98, 115, 116 => ProfileClass.Abstract
  | 110, 109, 99, 108 => ProfileClass.NamedColor
  | _, _, _, _ => ProfileClass.Unknown

/-- The `IccProfile` value `load_profile` builds once both guards passed. -/
def mk_profile (dir : FsPath) (f : ScanFile) : IccProfile :=
  { path := dir ++ [f.fileName]
    name := f.stem
    description := f.stem
    color_space := icc_color_space f.data
    profileClass := icc_profile_class f.data
    white_point := (9505/10000, 1, 10890/10000)
    copyright := none }

/-- The `IccManager::load_profile` from `icc.rs`. `dir` is the directory the file
sits in (so `path := dir ++ [f.fileName]`); `f.data` is what `fs::read`
returned. Indices are safe: both guards have passed when they are read. -/
def load_profile (dir : FsPath) (f : ScanFile) : Except ColorError IccProfile :=
  if f.data.length < 128 then
    Except.error (ColorError.IccError "Profile too small")
  else if f.data.length < icc_declared_size f.data then
    Except.error (ColorError.IccError "Incomplete profile")
  else
    Except.ok (mk_profile dir f)

/-- The `HashMap::insert` on the association-list model: replaces any existing
binding of the key. -/
def insertProfile (profiles : List (String × IccProfile)) (k : String)
    (v : IccProfile) : List (String × IccProfile) :=
  (k, v) :: profiles.filter (fun p => !(p.1 == k))

/-- The body of the `for entry in entries` loop of `scan_directory`: files
with extension `icc`/`icm` are parsed and inserted under `profile.name`;
parse failures are skipped. -/
def scanStep (dir : FsPath) (acc : List (String × IccProfile)) (f : ScanFile) :
    List (String × IccProfile) :=
  if f.ext == some "icc" || f.ext == some "icm" then
    match load_profile dir f with
    | Except.ok profile => insertProfile acc profile.name profile
    | Except.error _ => acc
  else acc

/-- The `IccManager::scan_directory` from `icc.rs`. `files = none` models a
directory that does not exist or whose `read_dir` fails (the directory is
skipped); otherwise every listed file runs through `scanStep`. -/
def scan_directory (profiles : List (String × IccProfile)) (_dir : FsPath)
    (files : Option (List ScanFile)) : List (String × IccProfile) :=
  match files with
  | none => profiles
  | some fs => fs.foldl (scanStep _dir) profiles

/-- The `IccManager::scan_profiles` from `icc.rs`: clears the index, then scans
the three system paths followed by the user path. `dirs` carries each scanned
path with its directory listing (`none` = missing/unreadable). -/
def scan_profiles (dirs : List (FsPath × Option (List ScanFile)))
    (_profiles : List (String × IccProfile)) : List (String × IccProfile) :=
  dirs.foldl (fun acc d => scan_directory acc d.1 d.2) []

/-- A scanned file that `scan_directory` indexes: extension `icc` and a
header `load_profile` accepts. -/
def IsWfIcc (dir : FsPath) (f : ScanFile) : Prop :=
  f.ext = some "icc" ∧ (load_profile dir f).isOk = true

/-- A scanned file that `scan_directory` skips: wrong extension, or a header
`load_profile` rejects. -/
def IsSkipped (dir : FsPath) (f : ScanFile) : Prop :=
  (f.ext ≠ some "icc" ∧ f.ext ≠ some "icm") ∨ (load_profile dir f).isOk = false

instance (dir : FsPath) (f : ScanFile) : Decidable (IsWfIcc dir f) :=
  decidable_of_iff (f.ext = some "icc" ∧ (load_profile dir f).isOk = true) Iff.rfl

instance (dir : FsPath) (f : ScanFile) : Decidable (IsSkipped dir f) :=
  decidable_of_iff
    ((f.ext ≠ some "icc" ∧ f.ext ≠ some "icm") ∨ (load_profile dir f).isOk = false)
    Iff.rfl

/-- The stems of the well-formed `.icc` files of one directory listing, in
listing order (these are the index keys `scan_directory` inserts). -/
def wfIccStems (dir : FsPath) (files : List ScanFile) : List String :=
  (files.filter
    (fun f => f.ext == some "icc" && (load_profile dir f).isOk)).map ScanFile.stem

/-- The index keys contributed by one scanned directory. -/
def dirStems (d : FsPath × Option (List ScanFile)) : List String :=
  match d.2 with
  | none => []
  | some fs => wfIccStems d.1 fs

/-- The `Path::starts_with` from `icc.rs` (`remove_profile`), component-wise. -/
def path_starts_with (p base : FsPath) : Bool :=
  match base, p with
  | [], _ => true
  | _ :: _, [] => false
  | b :: bs, a :: as_ => a == b && path_starts_with as_ bs

/-- The `IccManager` state `remove_profile` touches. -/
structure IccManagerState where
  profiles : List (String × IccProfile)
  user_path : FsPath
deriving DecidableEq

/-- The `IccManager::remove_profile` from `icc.rs`, with the disk modelled as the
list of existing file paths. Mirrors the source exactly: unknown names return
`Ok(())` untouched; a known profile is deleted only when its stored path
starts with `user_path` (a failing `fs::remove_file` propagates as an Io
error *before* the index entry is removed); otherwise the call fails with
"Cannot remove system profile" and nothing changes. -/
def remove_profile (st : IccManagerState) (disk : List FsPath) (name : String) :
    Except ColorError Unit × IccManagerState × List FsPath :=
  match st.profiles.lookup name with
  | some profile =>
    if path_starts_with profile.path st.user_path then
      if disk.contains profile.path then
        (Except.ok (),
          { st with profiles := st.profiles.filter (fun p => !(p.1 == name)) },
          disk.filter (fun q => !(q == profile.path)))
      else
        (Except.error (ColorError.Io "No such file or directory"), st, disk)
    else
      (Except.error (ColorError.IccError "Cannot remove system profile"), st, disk)
  | none => (Except.ok (), st, disk)

/-- The `EdidInfo` from `monitor.rs`. -/
structure EdidInfo where
  manufacturer : String
  model : String
  serial : Option String
  year : ℕ
  resolution : ℕ × ℕ
  physical_size_mm : Option (ℕ × ℕ)
deriving DecidableEq

/-- The `ColorDepth` from `monitor.rs`. -/
inductive ColorDepth where
  | Bit8
  | Bit10
  | Bit12
  | Bit16
deriving DecidableEq

/-- The `HdrCapability` from `monitor.rs`. -/
inductive HdrCapability where
  | None
  | Hdr10
  | Hdr10Plus
  | DolbyVision
  | HlgBt2100
deriving DecidableEq

/-- The `ColorGamut` from `monitor.rs`. -/
inductive ColorGamut where
  | Srgb
  | AdobeRgb
  | DciP3
  | Bt2020
  | Unknown
deriving DecidableEq

/-- The `MonitorCapabilities` from `monitor.rs` (`f32` fields as ℚ). -/
structure MonitorCapabilities where
  color_depth : ColorDepth
  hdr_support : HdrCapability
  wide_gamut : Bool
  native_gamma : ℚ
  max_luminance : Option ℕ
  min_luminance : Option ℚ
  color_gamut : ColorGamut
deriving DecidableEq

/-- The `CalibrationData` from `monitor.rs` (only carried, never computed with). -/
structure CalibrationData where
  date : String
  gamma : ℚ
  brightness : ℚ
  contrast : ℚ
  rgb_gains : ℚ × ℚ × ℚ
deriving DecidableEq

/-- The `MonitorProfile` from `monitor.rs`. -/
structure MonitorProfile where
  name : String
  edid : EdidInfo
  capabilities : MonitorCapabilities
  calibration : Option CalibrationData
  icc_profile : Option FsPath
deriving DecidableEq

/-- The `decode_manufacturer_id` from `monitor.rs`: three 5-bit groups mapped into
letters (adding 64 to each 5-bit group). -/
def decode_manufacturer_id (id : ℕ) : String :=
  String.mk
    [ Char.ofNat (((id >>> 10) &&& 0x1F) + 64),
      Char.ofNat (((id >>> 5) &&& 0x1F) + 64),
      Char.ofNat ((id &&& 0x1F) + 64) ]

/-- The raw horizontal active value of the detailed-timing descriptor:
`((data[58] as u32 & 0xF0) << 4) | data[56] as u32`. -/
def edid_h_active (data : List ℕ) : ℕ :=
  (((data.getD 58 0) &&& 0xF0) <<< 4) ||| data.getD 56 0

/-- The raw vertical active value of the detailed-timing descriptor:
`((data[61] as u32 & 0xF0) << 4) | data[59] as u32`. -/
def edid_v_active (data : List ℕ) : ℕ :=
  (((data.getD 61 0) &&& 0xF0) <<< 4) ||| data.getD 59 0

/-- The `parse_edid` from `monitor.rs`. Indices are safe: the 128-byte guard has
passed when they are read. -/
def parse_edid (data : List ℕ) : Except ColorError EdidInfo :=
  if data.length < 128 then
    Except.error (ColorError.IccError "EDID too small")
  else
    let manufacturer_id := ((data.getD 8 0) <<< 8) ||| data.getD 9 0
    let h_size := (((data.getD 68 0) &&& 0xF0) <<< 4) ||| data.getD 66 0
    let v_size := (((data.getD 68 0) &&& 0x0F) <<< 8) ||| data.getD 67 0
    Except.ok
      { manufacturer := decode_manufacturer_id manufacturer_id
        model := "Monitor"
        serial := none
        year := 1990 + data.getD 17 0
        resolution := (max (edid_h_active data) 1920, max (edid_v_active data) 1080)
        physical_size_mm :=
          if 0 < h_size ∧ 0 < v_size then some (h_size * 10, v_size * 10)
          else none }

/-- The `default_edid` from `monitor.rs`. -/
def default_edid (name : String) : EdidInfo :=
  { manufacturer := "Unknown"
    model := name
    serial := none
    year := 2024
    resolution := (1920, 1080)
    physical_size_mm := none }

/-- The `detect_capabilities` from `monitor.rs`: a fixed typical-SDR default for
every connector (the `_path` argument is unused, as in the source). -/
def detect_capabilities (_path : FsPath) : MonitorCapabilities :=
  { color_depth := ColorDepth.Bit8
    hdr_support := HdrCapability.None
    wide_gamut := false
    native_gamma := 11/5
    max_luminance := some 300
    min_luminance := some (1/2)
    color_gamut := ColorGamut.Srgb }

/-- The placeholder pushed by `detect_monitors` when nothing is detected. -/
def default_monitor : MonitorProfile :=
  { name := "Default"
    edid :=
      { manufacturer := "Unknown"
        model := "Unknown Monitor"
        serial := none
        year := 2024
        resolution := (1920, 1080)
        physical_size_mm := none }
    capabilities :=
      { color_depth := ColorDepth.Bit8
        hdr_support := HdrCapability.None
        wide_gamut := false
        native_gamma := 11/5
        max_luminance := some 300
        min_luminance := some (1/2)
        color_gamut := ColorGamut.Srgb }
    calibration := none
    icc_profile := none }

/-- One `/sys/class/drm` entry as `detect_monitors` probes it: the entry
name, the contents of its `status` file (`none` = file missing/unreadable,
in which case the source falls through and keeps the entry), and the bytes
of its `edid` file (`none` = no such file). -/
structure ConnectorEntry where
  name : String
  status : Option String
  edid : Option (List ℕ)
deriving DecidableEq

/-- The monitor `detect_monitors` builds from one accepted connector entry. -/
def monitor_of_entry (e : ConnectorEntry) : MonitorProfile :=
  { name := e.name
    edid :=
      match e.edid with
      | some data =>
        match parse_edid data with
        | Except.ok info => info
        | Except.error _ => default_edid e.name
      | none => default_edid e.name
    capabilities := detect_capabilities ["sys", "class", "drm", e.name]
    calibration := none
    icc_profile := none }

/-- The connector loop of `detect_monitors` from `monitor.rs`, before the
placeholder fallback. `drm = none` models a missing `/sys/class/drm` (or a
failing `read_dir`). Entries not named `card*-*` are skipped, and an entry
whose readable status is not "connected" is skipped. -/
def detect_monitors_raw (drm : Option (List ConnectorEntry)) :
    List MonitorProfile :=
  match drm with
  | none => []
  | some entries =>
    entries.filterMap (fun e =>
      if !(e.name.startsWith "card") || !(e.name.contains '-') then none
      else
        match e.status with
        | some st => if st.trim ≠ "connected" then none else some (monitor_of_entry e)
        | none => some (monitor_of_entry e))

/-- The `detect_monitors` from `monitor.rs` (always `Ok` in the source, so the
`Result` wrapper is dropped): the connector loop plus the placeholder
fallback. -/
def detect_monitors (drm : Option (List ConnectorEntry)) : List MonitorProfile :=
  if (detect_monitors_raw drm).isEmpty then [default_monitor]
  else detect_monitors_raw drm

/-- The `HdrFormat` from `hdr.rs`. -/
inductive HdrFormat where
  | Sdr
  | Hdr10
  | Hdr10Plus
  | DolbyVision
  | Hlg
deriving DecidableEq

/-- The `TransferFunction` from `hdr.rs`. -/
inductive TransferFunction where
  | Srgb
  | Bt1886
  | Pq
  | Hlg
  | Linear
deriving DecidableEq

/-- The `ColorPrimaries` from `hdr.rs` (`f32` pairs as ℚ pairs). -/
structure ColorPrimaries where
  red : ℚ × ℚ
  green : ℚ × ℚ
  blue : ℚ × ℚ
deriving DecidableEq

/-- The `ColorPrimaries::bt2020()` from `hdr.rs`. -/
def ColorPrimaries.bt2020 : ColorPrimaries :=
  { red := (708/1000, 292/1000)
    green := (170/1000, 797/1000)
    blue := (131/1000, 46/1000) }

/-- The `HdrMetadata` from `hdr.rs`. -/
structure HdrMetadata where
  format : HdrFormat
  max_luminance : ℕ
  max_frame_average : ℕ
  min_luminance : ℚ
  primaries : ColorPrimaries
  white_point : ℚ × ℚ
  transfer_function : TransferFunction
deriving DecidableEq

/-- The `default_hdr10_metadata()` from `hdr.rs`. -/
def default_hdr10_metadata : HdrMetadata :=
  { format := HdrFormat.Hdr10
    max_luminance := 1000
    max_frame_average := 400
    min_luminance := 1/1000
    primaries := ColorPrimaries.bt2020
    white_point := (3127/10000, 3290/10000)
    transfer_function := TransferFunction.Pq }

/-- The `HdrMonitorState` from `hdr.rs`. -/
structure HdrMonitorState where
  name : String
  hdr_active : Bool
  capability : HdrCapability
  metadata : Option HdrMetadata
deriving DecidableEq

/-- The `HdrSupport` from `hdr.rs`. -/
structure HdrSupport where
  enabled : Bool
  monitors : List HdrMonitorState
deriving DecidableEq

/-- The `HdrSupport::detect` from `hdr.rs`, applied to the monitor list
`detect_monitors` returned: keeps only monitors whose capability is not
`None`, all initially inactive. -/
def HdrSupport.detect (monitors : List MonitorProfile) : HdrSupport :=
  let hdr_monitors :=
    (monitors.filter
        (fun m => decide (m.capabilities.hdr_support ≠ HdrCapability.None))).map
      (fun m =>
        { name := m.name
          hdr_active := false
          capability := m.capabilities.hdr_support
          metadata := none })
  { enabled := !hdr_monitors.isEmpty, monitors := hdr_monitors }

/-- The `iter_mut().find(..)` followed by a mutation: rewrite the first element
satisfying `p`. -/
def updateFirst (p : α → Bool) (f : α → α) : List α → List α
  | [] => []
  | x :: xs => if p x then f x :: xs else x :: updateFirst p f xs

/-- The `HdrSupport::enable_hdr` from `hdr.rs`, state-passing form. The
result of the `enable_hdr_drm` platform call is discarded in the source,
so it has no effect on the logical state. -/
def HdrSupport.enable_hdr (s : HdrSupport) (monitor_name : String) :
    Except ColorError Unit × HdrSupport :=
  match s.monitors.find? (fun m => m.name == monitor_name) with
  | some monitor =>
    if monitor.capability = HdrCapability.None then
      (Except.error ColorError.HdrNotSupported, s)
    else
      (Except.ok (),
        { s with
            monitors :=
              updateFirst (fun m => m.name == monitor_name)
                (fun m =>
                  { m with
                      hdr_active := true
                      metadata := some default_hdr10_metadata })
                s.monitors })
  | none => (Except.error (ColorError.MonitorNotFound monitor_name), s)

/-- The `HdrSupport::is_hdr_active` from `hdr.rs`. -/
def HdrSupport.is_hdr_active (s : HdrSupport) (monitor_name : String) : Bool :=
  ((s.monitors.find? (fun m => m.name == monitor_name)).map
    (fun m => m.hdr_active)).getD false

/-- The `ColorService::is_hdr_supported` from `dbus.rs`. -/
def ColorService.is_hdr_supported (h : HdrSupport) : Bool :=
  !h.monitors.isEmpty

/-- The `HashMap::get_mut` followed by a field write: rewrite the binding of `k`
(the first, and in a map only, occurrence). -/
def updateMonitorConfig (m : List (String × MonitorColorConfig)) (k : String)
    (f : MonitorColorConfig → MonitorColorConfig) :
    List (String × MonitorColorConfig) :=
  match m with
  | [] => []
  | (k', v) :: rest =>
    if k' == k then (k', f v) :: rest else (k', v) :: updateMonitorConfig rest k f

/-- The `ColorService::set_monitor_profile` from `dbus.rs`, state-passing form.
Returns the boolean D-Bus reply, the config state after the call, and whether
`config.save()` was invoked (`saveOk` models whether that save succeeds). Note the
live detected-monitor list is not consulted at all: only the persisted
`config.monitors` map is. -/
def set_monitor_profile (saveOk : Bool) (c : ColorConfig) (monitor : String)
    (profile_path : String) : Bool × ColorConfig × Bool :=
  match c.monitors.lookup monitor with
  | some _ =>
    (saveOk,
      { c with
          monitors :=
            updateMonitorConfig c.monitors monitor
              (fun mc =>
                { mc with
                    icc_profile :=
                      if profile_path == "" then none else some [profile_path] }) },
      true)
  | none => (false, c, false)

/-- PQ constant `m1 = 0.1593017578125` from `hdr.rs`. -/
noncomputable def pqm1 : ℝ := 0.1593017578125

/-- PQ constant `m2 = 78.84375` from `hdr.rs`. -/
noncomputable def pqm2 : ℝ := 78.84375

/-- PQ constant `c1 = 0.8359375` from `hdr.rs`. -/
noncomputable def pqc1 : ℝ := 0.8359375

/-- PQ constant `c2 = 18.8515625` from `hdr.rs`. -/
noncomputable def pqc2 : ℝ := 18.8515625

/-- PQ constant `c3 = 18.6875` from `hdr.rs`. -/
noncomputable def pqc3 : ℝ := 18.6875

/-- The `pq_eotf` from `hdr.rs` (ST 2084 EOTF), over ℝ with `Real.rpow` for
`f32::powf` and `max _ 0` for `f32::max(0.0)`. -/
noncomputable def pq_eotf (value : ℝ) : ℝ :=
  10000 *
    (max (value ^ (1 / pqm2) - pqc1) 0 / (pqc2 - pqc3 * value ^ (1 / pqm2))) ^
      (1 / pqm1)

/-- The `pq_oetf` from `hdr.rs` (ST 2084 OETF), over ℝ. -/
noncomputable def pq_oetf (luminance : ℝ) : ℝ :=
  ((pqc1 + pqc2 * max (luminance / 10000) 0 ^ pqm1) /
      (1 + pqc3 * max (luminance / 10000) 0 ^ pqm1)) ^
    pqm2

/-- The native resolution as the specification describes it (for comparison
with `parse_edid`): the raw detailed-timing values, each floored to the
1920/1080 minimum only when the descriptor value is absent or zero. -/
def spec_resolution (data : List ℕ) : ℕ × ℕ :=
  (if edid_h_active data = 0 then 1920 else edid_h_active data,
   if edid_v_active data = 0 then 1080 else edid_v_active data)

/-- A 128-byte EDID block whose detailed-timing descriptor encodes 1280x720:
byte 58 = 0x50, byte 59 = 0xD0, byte 61 = 0x20, all other bytes 0. -/
def edid720 : List ℕ :=
  (((List.replicate 128 0).set 58 80).set 59 208).set 61 32

/-- A minimal well-formed ICC header: 128 bytes, declared size 128. -/
def wf_icc_bytes : List ℕ := 0 :: 0 :: 0 :: 128 :: List.replicate 124 0

/-- A well-formed user `.icc` file with stem "foo". -/
def foo_icc : ScanFile := { stem := "foo", ext := some "icc", data := wf_icc_bytes }

/-- A well-formed user `.icc` file with stem "bar". -/
def bar_icc : ScanFile := { stem := "bar", ext := some "icc", data := wf_icc_bytes }

/-- A malformed `.icc` file (3 bytes, rejected as too small). -/
def broken_icc : ScanFile := { stem := "broken", ext := some "icc", data := [1, 2, 3] }

/-- An `.icc` file shorter than the 128-byte header. -/
def tiny_icc : ScanFile := { stem := "tiny", ext := some "icc", data := [0, 0, 0, 4] }

/-- A 128-byte `.icc` file whose declared size (256) exceeds its length. -/
def truncated_icc : ScanFile :=
  { stem := "trunc", ext := some "icc", data := 0 :: 0 :: 1 :: 0 :: List.replicate 124 0 }

/-- Two scanned directories each holding a well-formed `foo.icc`: two
well-formed `.icc` files whose stems clash across directories. -/
def clash_dirs : List (FsPath × Option (List ScanFile)) :=
  [(["usr", "share", "color", "icc"], some [foo_icc]),
   (["var", "lib", "colord", "icc"], some [foo_icc])]

/-- A scan layout with two well-formed `.icc` files of distinct stems plus
one malformed file, across two directories (the other dirs missing). -/
def sample_dirs : List (FsPath × Option (List ScanFile)) :=
  [(["usr", "share", "color", "icc"], some [foo_icc, broken_icc]),
   (["usr", "local", "share", "color", "icc"], none),
   (["var", "lib", "colord", "icc"], none),
   (["home", "user", ".local", "share", "icc"], some [bar_icc])]

/-- A tracked HDR state holding one monitor whose capability is `None`. -/
def hdr_state_none : HdrSupport :=
  { enabled := false
    monitors :=
      [{ name := "HDMI-A-1"
         hdr_active := false
         capability := HdrCapability.None
         metadata := none }] }

/-- A profile stored under a system directory (not under the user path). -/
def fogra_profile : IccProfile :=
  { path := ["usr", "share", "color", "icc", "Fogra39.icc"]
    name := "Fogra39"
    description := "Fogra39"
    color_space := ColorSpace.CMYK
    profileClass := ProfileClass.Output
    white_point := (9505/10000, 1, 10890/10000)
    copyright := none }

/-- A manager state indexing only the system profile above. -/
def mgr_with_system_profile : IccManagerState :=
  { profiles := [("Fogra39", fogra_profile)]
    user_path := ["home", "user", ".local", "share", "icc"] }

/-- C1 counterexample: a stored config file with unparsable content does not
load as the built-in defaults — `ColorConfig::load` returns a `Config` error,
and `ColorService::init` propagates it, so startup fails. -/
theorem config_load_unparsable_counterexample :
    (toml_reject "this is ::: not toml").isOk = false ∧
    ColorConfig.load (some "this is ::: not toml") toml_reject ≠
      Except.ok ColorConfig.default ∧
    ColorService.init (some "this is ::: not toml") toml_reject =
      Except.error (ColorError.Config "expected an equals, found an identifier") :=
  ⟨rfl, by simp [ColorConfig.load, toml_reject], rfl⟩

/-- C1 (amended): loading from a nonexistent path returns the built-in
defaults (five workflows photography/video/vfx/print/web, enabled = true,
intent Perceptual), but loading a stored file whose content fails to parse
returns a `Config` error rather than the defaults, and `ColorService::init`
propagates any config load error, so startup does fail on a parse error. -/
theorem config_load_behaviour :
    (∀ p, ColorConfig.load none p = Except.ok ColorConfig.default) ∧
    ColorConfig.default.workflows.map Prod.fst =
      ["photography", "video", "vfx", "print", "web"] ∧
    ColorConfig.default.global.enabled = true ∧
    ColorConfig.default.global.rendering_intent = RenderingIntent.Perceptual ∧
    (∀ p content e, p content = Except.error e →
      ColorConfig.load (some content) p = Except.error (ColorError.Config e)) ∧
    (∀ file p e, ColorConfig.load file p = Except.error e →
      ColorService.init file p = Except.error e) := by
  refine ⟨fun p => rfl, rfl, rfl, rfl, ?_, ?_⟩
  · intro p content e h
    simp [ColorConfig.load, h]
  · intro file p e h
    simp [ColorService.init, h]

/-- C1 witness: the amended claim applied to one concrete unparsable file. -/
theorem config_load_behaviour_witness :
    toml_reject "x" = Except.error "expected an equals, found an identifier" ∧
    ColorConfig.load (some "x") toml_reject =
      Except.error (ColorError.Config "expected an equals, found an identifier") ∧
    ColorService.init (some "x") toml_reject =
      Except.error (ColorError.Config "expected an equals, found an identifier") :=
  ⟨rfl, config_load_behaviour.2.2.2.2.1 toml_reject "x" _ rfl,
    config_load_behaviour.2.2.2.2.2 (some "x") toml_reject _
      (config_load_behaviour.2.2.2.2.1 toml_reject "x" _ rfl)⟩

/-- C2: `enable_hdr` on a tracked monitor whose capability is `None` returns
`HdrNotSupported`, leaves the whole state unchanged, and in particular never
flips `is_hdr_active` for that monitor to true. -/
theorem hdr_capability_gate (s : HdrSupport) (name : String) (m : HdrMonitorState)
    (hfind : s.monitors.find? (fun x => x.name == name) = some m)
    (hcap : m.capability = HdrCapability.None) :
    s.enable_hdr name = (Except.error ColorError.HdrNotSupported, s) ∧
    (s.enable_hdr name).2.is_hdr_active name = s.is_hdr_active name := by
  have h1 : s.enable_hdr name = (Except.error ColorError.HdrNotSupported, s) := by
    simp [HdrSupport.enable_hdr, hfind, hcap]
  exact ⟨h1, by rw [h1]⟩

/-- C2 witness: the gate at a concrete one-monitor state. -/
theorem hdr_capability_gate_witness :
    hdr_state_none.monitors.find? (fun x => x.name == "HDMI-A-1") =
      some { name := "HDMI-A-1", hdr_active := false,
             capability := HdrCapability.None, metadata := none } ∧
    hdr_state_none.enable_hdr "HDMI-A-1" =
      (Except.error ColorError.HdrNotSupported, hdr_state_none) :=
  ⟨rfl, (hdr_capability_gate hdr_state_none "HDMI-A-1" _ rfl rfl).1⟩

/-- C4: ICC parsing rejects a buffer shorter than 128 bytes as "Profile too
small", and a buffer whose declared big-endian size at offset 0 exceeds the
buffer length as "Incomplete profile"; no profile is produced either way. -/
theorem icc_header_rejection (dir : FsPath) (f : ScanFile) :
    (f.data.length < 128 →
      load_profile dir f = Except.error (ColorError.IccError "Profile too small")) ∧
    (128 ≤ f.data.length → f.data.length < icc_declared_size f.data →
      load_profile dir f = Except.error (ColorError.IccError "Incomplete profile")) := by
  constructor
  · intro h
    simp [load_profile, h]
  · intro h1 h2
    simp [load_profile, Nat.not_lt.mpr h1, h2]

/-- C4 witness: both rejections at concrete buffers. -/
theorem icc_header_rejection_witness :
    tiny_icc.data.length < 128 ∧
    load_profile ["usr", "share", "color", "icc"] tiny_icc =
      Except.error (ColorError.IccError "Profile too small") ∧
    128 ≤ truncated_icc.data.length ∧
    truncated_icc.data.length < icc_declared_size truncated_icc.data ∧
    load_profile ["usr", "share", "color", "icc"] truncated_icc =
      Except.error (ColorError.IccError "Incomplete profile") :=
  ⟨by decide, (icc_header_rejection _ tiny_icc).1 (by decide), by decide, by decide,
    (icc_header_rejection _ truncated_icc).2 (by decide) (by decide)⟩

/-- C7: `detect_monitors` never returns an empty list, and whenever the
connector loop finds no connected display it returns exactly the one
placeholder "Default" monitor (1920x1080, sRGB gamut, HDR capability None). -/
theorem detect_monitors_placeholder (drm : Option (List ConnectorEntry)) :
    detect_monitors drm ≠ [] ∧
    (detect_monitors_raw drm = [] → detect_monitors drm = [default_monitor]) ∧
    default_monitor.name = "Default" ∧
    default_monitor.edid.resolution = (1920, 1080) ∧
    default_monitor.capabilities.color_gamut = ColorGamut.Srgb ∧
    default_monitor.capabilities.hdr_support = HdrCapability.None := by
  refine ⟨?_, ?_, rfl, rfl, rfl, rfl⟩
  · by_cases h : (detect_monitors_raw drm).isEmpty
    · simp [detect_monitors, h]
    · simp only [detect_monitors, h, Bool.false_eq_true, if_false]
      simpa [List.isEmpty_iff] using h
  · intro hraw
    simp [detect_monitors, hraw]

/-- C7 witness: the placeholder branch at a concrete probe outcome. -/
theorem detect_monitors_placeholder_witness :
    detect_monitors_raw none = [] ∧ detect_monitors none = [default_monitor] :=
  ⟨rfl, (detect_monitors_placeholder none).2.1 rfl⟩

/-- C8 counterexample: on an EDID block whose detailed-timing descriptor is
present and nonzero (1280x720), `parse_edid` still reports 1920x1080 — the
flooring is unconditional, while the claim predicts the raw 1280x720. -/
theorem edid_resolution_counterexample :
    (parse_edid edid720).map EdidInfo.resolution = Except.ok (1920, 1080) ∧
    spec_resolution edid720 = (1280, 720) ∧
    ((1920, 1080) : ℕ × ℕ) ≠ (1280, 720) :=
  ⟨by decide, by decide, by decide⟩

/-- C8 (amended): for every EDID block of at least 128 bytes, the parsed
native resolution is the detailed-timing reconstruction
`((byte[58]&0xF0)<<4) | byte[56]` by `((byte[61]&0xF0)<<4) | byte[59]`, with
each component unconditionally clamped below to 1920 resp. 1080 (so the
1920x1080 fallback applies whenever the descriptor value is smaller, not
only when it is absent or zero). -/
theorem edid_resolution_amended (data : List ℕ) (h : 128 ≤ data.length) :
    (parse_edid data).map EdidInfo.resolution =
      Except.ok (max (edid_h_active data) 1920, max (edid_v_active data) 1080) := by
  simp [parse_edid, Nat.not_lt.mpr h, Except.map]

/-- C8 witness: the amended claim at a concrete all-zero EDID block. -/
theorem edid_resolution_amended_witness :
    128 ≤ (List.replicate 128 (0 : ℕ)).length ∧
    (parse_edid (List.replicate 128 0)).map EdidInfo.resolution =
      Except.ok (1920, 1080) :=
  ⟨by decide,
    (edid_resolution_amended (List.replicate 128 0) (by decide)).trans (by decide)⟩

/-- C9: for a profile present in the index, `remove_profile` fails with the
permission-style "Cannot remove system profile" error — leaving the index and
the disk unchanged — whenever the stored path does not lie under the user
directory, and it can only succeed when the stored path does lie there. -/
theorem remove_profile_user_dir_only (st : IccManagerState) (disk : List FsPath)
    (name : String) (profile : IccProfile)
    (hlook : st.profiles.lookup name = some profile) :
    (path_starts_with profile.path st.user_path = false →
      remove_profile st disk name =
        (Except.error (ColorError.IccError "Cannot remove system profile"), st, disk)) ∧
    ((remove_profile st disk name).1 = Except.ok () →
      path_starts_with profile.path st.user_path = true) := by
  constructor
  · intro h
    simp [remove_profile, hlook, h]
  · intro h
    cases hsw : path_starts_with profile.path st.user_path
    · simp [remove_profile, hlook, hsw] at h
    · rfl

/-- C9 witness: removing a system-directory profile fails and changes
nothing. -/
theorem remove_profile_user_dir_only_witness :
    mgr_with_system_profile.profiles.lookup "Fogra39" = some fogra_profile ∧
    path_starts_with fogra_profile.path mgr_with_system_profile.user_path = false ∧
    remove_profile mgr_with_system_profile [fogra_profile.path] "Fogra39" =
      (Except.error (ColorError.IccError "Cannot remove system profile"),
        mgr_with_system_profile, [fogra_profile.path]) :=
  ⟨rfl, rfl,
    (remove_profile_user_dir_only mgr_with_system_profile [fogra_profile.path]
      "Fogra39" fogra_profile rfl).1 rfl⟩

/-- C10: `set_monitor_profile` on a monitor name absent from the persisted
monitors map of the persisted config returns false, leaves the config unchanged (no entry is
created), and never invokes `config.save()` — regardless of the live
detected-monitor list, which the source never consults here. -/
theorem set_monitor_profile_unknown (saveOk : Bool) (c : ColorConfig)
    (monitor profile_path : String)
    (h : c.monitors.lookup monitor = none) :
    set_monitor_profile saveOk c monitor profile_path = (false, c, false) := by
  simp [set_monitor_profile, h]

/-- C10 witness: the default config has no monitor entries, so any
assignment is refused without saving. -/
theorem set_monitor_profile_unknown_witness :
    ColorConfig.default.monitors.lookup "DP-1" = none ∧
    set_monitor_profile true ColorConfig.default "DP-1" "/tmp/p.icc" =
      (false, ColorConfig.default, false) :=
  ⟨rfl, set_monitor_profile_unknown true ColorConfig.default "DP-1" "/tmp/p.icc" rfl⟩

/-- Filtering leaves an empty list exactly when no element satisfies the
predicate. -/
theorem filter_isEmpty_eq_not_any (p : α → Bool) (l : List α) :
    (l.filter p).isEmpty = !l.any p := by
  induction l with
  | nil => rfl
  | cons a l ih =>
    by_cases h : p a
    · simp [List.filter_cons, h]
    · simp [List.filter_cons, h, ih]

/-- Mapping preserves emptiness. -/
theorem map_isEmpty_eq (f : α → β) (l : List α) : (l.map f).isEmpty = l.isEmpty := by
  cases l <;> rfl

/-- The value of `is_hdr_supported` after `HdrSupport::detect` is exactly "the
capability of some monitor is not `None`". -/
theorem is_hdr_supported_detect (ms : List MonitorProfile) :
    ColorService.is_hdr_supported (HdrSupport.detect ms) =
      ms.any (fun m => decide (m.capabilities.hdr_support ≠ HdrCapability.None)) := by
  simp [ColorService.is_hdr_supported, HdrSupport.detect, map_isEmpty_eq,
    filter_isEmpty_eq_not_any]

/-- Every monitor `detect_monitors` produces carries the fixed typical-SDR
capabilities, so its HDR capability is `None` (placeholder included). -/
theorem detect_monitors_hdr_none (drm : Option (List ConnectorEntry)) :
    ∀ m ∈ detect_monitors drm, m.capabilities.hdr_support = HdrCapability.None := by
  intro m hm
  unfold detect_monitors at hm
  split at hm
  · simp only [List.mem_singleton] at hm
    subst hm
    rfl
  · unfold detect_monitors_raw at hm
    cases drm with
    | none => simp at hm
    | some entries =>
      simp only [List.mem_filterMap] at hm
      rcases hm with ⟨e, -, he⟩
      have hme : m = monitor_of_entry e := by
        split at he
        · exact Option.noConfusion he
        · split at he
          · split at he
            · exact Option.noConfusion he
            · exact (Option.some.inj he).symm
          · exact (Option.some.inj he).symm
      subst hme
      rfl

/-- C3: `is_hdr_supported` is true iff the derived HDR capability of some
detected monitor is not `None`; and since capability detection always yields the
typical-SDR default (capability `None`) for every connector — and the
"Default" placeholder is likewise sRGB/no-HDR — it is false on every
`detect_monitors` outcome. -/
theorem is_hdr_supported_iff (ms : List MonitorProfile) :
    (ColorService.is_hdr_supported (HdrSupport.detect ms) =
      ms.any (fun m => decide (m.capabilities.hdr_support ≠ HdrCapability.None))) ∧
    (∀ drm, ColorService.is_hdr_supported
        (HdrSupport.detect (detect_monitors drm)) = false) := by
  refine ⟨is_hdr_supported_detect ms, fun drm => ?_⟩
  rw [is_hdr_supported_detect]
  simp only [List.any_eq_false]
  intro m hm
  simp [detect_monitors_hdr_none drm m hm]

/-- A successfully parsed profile is indexed under the stem of the file. -/
theorem load_profile_name (dir : FsPath) (f : ScanFile) (p : IccProfile)
    (h : load_profile dir f = Except.ok p) : p.name = f.stem := by
  unfold load_profile at h
  split at h
  · exact Except.noConfusion h
  · split at h
    · exact Except.noConfusion h
    · cases h
      rfl

/-- Inserting a key absent from the index just prepends the binding. -/
theorem insertProfile_fresh (profiles : List (String × IccProfile)) (k : String)
    (v : IccProfile) (h : ∀ p ∈ profiles, p.1 ≠ k) :
    insertProfile profiles k v = (k, v) :: profiles := by
  unfold insertProfile
  congr 1
  apply List.filter_eq_self.mpr
  intro p hp
  simp [h p hp]

/-- A skipped file leaves the index untouched. -/
theorem scanStep_skipped (dir : FsPath) (acc : List (String × IccProfile))
    (f : ScanFile) (h : IsSkipped dir f) : scanStep dir acc f = acc := by
  rcases h with ⟨h1, h2⟩ | h3
  · simp [scanStep, h1, h2]
  · cases hl : load_profile dir f with
    | ok p => rw [hl] at h3; simp [Except.isOk, Except.toBool] at h3
    | error e =>
      unfold scanStep
      split
      · rw [hl]
      · rfl

/-- A well-formed `.icc` file inserts its parsed profile under its stem. -/
theorem scanStep_wf (dir : FsPath) (acc : List (String × IccProfile))
    (f : ScanFile) (p : IccProfile) (hext : f.ext = some "icc")
    (hp : load_profile dir f = Except.ok p) :
    scanStep dir acc f = insertProfile acc f.stem p := by
  simp [scanStep, hext, hp, load_profile_name dir f p hp]

/-- The keys after scanning one directory listing are a permutation of the
well-formed `.icc` stems of that listing followed by the keys already
present, provided stems and pre-existing keys never clash. -/
theorem scan_dir_keys (dir : FsPath) (files : List ScanFile)
    (acc : List (String × IccProfile))
    (hf : ∀ f ∈ files, IsWfIcc dir f ∨ IsSkipped dir f)
    (hnd : (acc.map Prod.fst ++ wfIccStems dir files).Nodup) :
    List.Perm ((files.foldl (scanStep dir) acc).map Prod.fst)
      (wfIccStems dir files ++ acc.map Prod.fst) := by
  induction files generalizing acc with
  | nil => simp [wfIccStems]
  | cons f fs ih =>
    have hfs : ∀ g ∈ fs, IsWfIcc dir g ∨ IsSkipped dir g := fun g hg =>
      hf g (List.mem_cons_of_mem f hg)
    rcases hf f (List.mem_cons_self f fs) with hwf | hskip
    · obtain ⟨hext, hok⟩ := hwf
      obtain ⟨p, hp⟩ : ∃ p, load_profile dir f = Except.ok p := by
        cases hl : load_profile dir f with
        | ok p => exact ⟨p, rfl⟩
        | error e => rw [hl] at hok; simp [Except.isOk, Except.toBool] at hok
      have hstems : wfIccStems dir (f :: fs) = f.stem :: wfIccStems dir fs := by
        unfold wfIccStems
        rw [List.filter_cons]
        simp [hext, hok]
      rw [hstems] at hnd ⊢
      have hnotin : f.stem ∉ acc.map Prod.fst := by
        rw [List.nodup_append] at hnd
        exact fun hmem => hnd.2.2 hmem (List.mem_cons_self _ _)
      have hfresh : ∀ q ∈ acc, q.1 ≠ f.stem := by
        intro q hq hqe
        exact hnotin (hqe ▸ List.mem_map_of_mem Prod.fst hq)
      have hstep : scanStep dir acc f = (f.stem, p) :: acc := by
        rw [scanStep_wf dir acc f p hext hp, insertProfile_fresh acc f.stem p hfresh]
      have hnd' : (((f.stem, p) :: acc).map Prod.fst ++ wfIccStems dir fs).Nodup :=
        List.Perm.nodup List.perm_middle hnd
      rw [List.foldl_cons, hstep]
      exact (ih ((f.stem, p) :: acc) hfs hnd').trans List.perm_middle
    · have hstems : wfIccStems dir (f :: fs) = wfIccStems dir fs := by
        unfold wfIccStems
        rw [List.filter_cons]
        rcases hskip with ⟨h1, -⟩ | h3
        · simp [h1]
        · simp [h3]
      rw [hstems] at hnd ⊢
      rw [List.foldl_cons, scanStep_skipped dir acc f hskip]
      exact ih acc hfs hnd

/-- The keys after the whole directory walk are a permutation of all the
well-formed `.icc` stems, per directory in order, followed by the keys the
accumulator already held. -/
theorem scan_dirs_keys (dirs : List (FsPath × Option (List ScanFile)))
    (acc : List (String × IccProfile))
    (hf : ∀ d ∈ dirs, ∀ f ∈ d.2.getD [], IsWfIcc d.1 f ∨ IsSkipped d.1 f)
    (hnd : (acc.map Prod.fst ++ (dirs.map dirStems).flatten).Nodup) :
    List.Perm ((dirs.foldl (fun a d => scan_directory a d.1 d.2) acc).map Prod.fst)
      ((dirs.map dirStems).flatten ++ acc.map Prod.fst) := by
  induction dirs generalizing acc with
  | nil => simp
  | cons d ds ih =>
    have hfds : ∀ d' ∈ ds, ∀ f ∈ d'.2.getD [], IsWfIcc d'.1 f ∨ IsSkipped d'.1 f :=
      fun d' hd' => hf d' (List.mem_cons_of_mem d hd')
    rw [List.map_cons, List.flatten_cons] at hnd ⊢
    cases hd2 : d.2 with
    | none =>
      have hds0 : dirStems d = [] := by unfold dirStems; rw [hd2]
      rw [hds0] at hnd ⊢
      rw [List.nil_append] at hnd ⊢
      have hscan : scan_directory acc d.1 d.2 = acc := by rw [hd2]; rfl
      rw [List.foldl_cons, hscan]
      exact ih acc hfds hnd
    | some fs =>
      have hds : dirStems d = wfIccStems d.1 fs := by unfold dirStems; rw [hd2]
      have hfd : ∀ f ∈ fs, IsWfIcc d.1 f ∨ IsSkipped d.1 f := by
        intro f hfm
        have := hf d (List.mem_cons_self d ds) f
        rw [hd2] at this
        exact this hfm
      have hscan : scan_directory acc d.1 d.2 = fs.foldl (scanStep d.1) acc := by
        rw [hd2]; rfl
      rw [hds] at hnd ⊢
      have hnd₁ : (acc.map Prod.fst ++ wfIccStems d.1 fs).Nodup := by
        have hsub := List.sublist_append_left
          (acc.map Prod.fst ++ wfIccStems d.1 fs) (ds.map dirStems).flatten
        rw [List.append_assoc] at hsub
        exact List.Nodup.sublist hsub hnd
      have hperm₁ := scan_dir_keys d.1 fs acc hfd hnd₁
      have hnd' : ((fs.foldl (scanStep d.1) acc).map Prod.fst ++
          (ds.map dirStems).flatten).Nodup := by
        have h1 : List.Perm
            (acc.map Prod.fst ++ (wfIccStems d.1 fs ++ (ds.map dirStems).flatten))
            ((wfIccStems d.1 fs ++ acc.map Prod.fst) ++ (ds.map dirStems).flatten) := by
          rw [← List.append_assoc]
          exact List.Perm.append_right _ List.perm_append_comm
        exact ((h1.trans (List.Perm.append_right _ hperm₁.symm)).nodup) hnd
      have hih := ih (fs.foldl (scanStep d.1) acc) hfds hnd'
      rw [List.foldl_cons, hscan]
      refine hih.trans ?_
      refine (List.Perm.append_left _ hperm₁).trans ?_
      rw [← List.append_assoc]
      exact List.Perm.append_right _ List.perm_append_comm

/-- C6 counterexample: two scanned directories each holding a well-formed
`foo.icc` give two well-formed `.icc` files but a single index entry — the
index is keyed by file stem, so same-stem files across directories collapse
and `scan()` does not yield "exactly N entries". -/
theorem icc_scan_clash_counterexample :
    ((clash_dirs.map dirStems).flatten).length = 2 ∧
    (scan_profiles clash_dirs []).length = 1 ∧ (1 : ℕ) ≠ 2 :=
  ⟨rfl, rfl, by decide⟩

/-- C6 (amended): if every scanned file is either well-formed with extension
`icc` or gets skipped (malformed or other extension), and the stems of the
well-formed `.icc` files are pairwise distinct across the scanned
directories, then `scan_profiles` yields exactly one index entry per
well-formed `.icc` file; and since it clears the index first, its result is
independent of the previous index state, so a rescan of an unchanged
filesystem yields the same entries (no accumulation or duplication). -/
theorem icc_scan_count (dirs : List (FsPath × Option (List ScanFile)))
    (p₁ p₂ : List (String × IccProfile))
    (hf : ∀ d ∈ dirs, ∀ f ∈ d.2.getD [], IsWfIcc d.1 f ∨ IsSkipped d.1 f)
    (hnd : ((dirs.map dirStems).flatten).Nodup) :
    (scan_profiles dirs p₁).length = ((dirs.map dirStems).flatten).length ∧
    scan_profiles dirs p₁ = scan_profiles dirs p₂ := by
  constructor
  · have h := scan_dirs_keys dirs [] hf (by simpa using hnd)
    have hlen := h.length_eq
    simp only [List.length_map, List.map_nil, List.append_nil] at hlen
    exact hlen
  · rfl

/-- C6 witness: a concrete layout with two distinct-stem well-formed `.icc`
files and one malformed file scans to exactly two entries, identically from
any prior index state. -/
theorem icc_scan_count_witness :
    (∀ d ∈ sample_dirs, ∀ f ∈ d.2.getD [], IsWfIcc d.1 f ∨ IsSkipped d.1 f) ∧
    ((sample_dirs.map dirStems).flatten).Nodup ∧
    (scan_profiles sample_dirs []).length = 2 ∧
    scan_profiles sample_dirs [] =
      scan_profiles sample_dirs [("x", fogra_profile)] := by
  have hf : ∀ d ∈ sample_dirs, ∀ f ∈ d.2.getD [], IsWfIcc d.1 f ∨ IsSkipped d.1 f := by
    decide
  have hnd : ((sample_dirs.map dirStems).flatten).Nodup := by decide
  have h := icc_scan_count sample_dirs [] [("x", fogra_profile)] hf hnd
  exact ⟨hf, hnd, h.1.trans (by decide), h.2⟩

/-- The `m1` is positive. -/
theorem pqm1_pos : (0:ℝ) < pqm1 := by norm_num [pqm1]

/-- The `m2` is positive. -/
theorem pqm2_pos : (0:ℝ) < pqm2 := by norm_num [pqm2]

/-- Above the clamp threshold (`x^(1/m2) ≥ c1`) the PQ round trip is exact:
the OETF inverts the EOTF with no error at all. -/
theorem pq_round_trip_exact (x : ℝ) (h0 : 0 ≤ x) (h1 : x ≤ 1)
    (hc : pqc1 ≤ x ^ (1 / pqm2)) : pq_oetf (pq_eotf x) = x := by
  have hm1 : (0:ℝ) < pqm1 := pqm1_pos
  have hm2 : (0:ℝ) < pqm2 := pqm2_pos
  have ht0 : (0:ℝ) ≤ x ^ (1 / pqm2) := Real.rpow_nonneg h0 _
  have ht1 : x ^ (1 / pqm2) ≤ 1 := Real.rpow_le_one h0 h1 (by positivity)
  have hden : 0 < pqc2 - pqc3 * x ^ (1 / pqm2) := by
    have h3 : pqc3 * x ^ (1 / pqm2) ≤ pqc3 * 1 := by
      apply mul_le_mul_of_nonneg_left ht1
      norm_num [pqc3]
    rw [mul_one] at h3
    have hc23 : pqc3 < pqc2 := by norm_num [pqc2, pqc3]
    linarith
  have htx : (x ^ (1 / pqm2)) ^ pqm2 = x := by
    rw [← Real.rpow_mul h0, one_div, inv_mul_cancel₀ (ne_of_gt hm2), Real.rpow_one]
  set t := x ^ (1 / pqm2) with ht_def
  unfold pq_eotf pq_oetf
  rw [← ht_def]
  rw [max_eq_left (by linarith : (0:ℝ) ≤ t - pqc1)]
  set s := (t - pqc1) / (pqc2 - pqc3 * t) with hs_def
  have hs0 : 0 ≤ s := div_nonneg (by linarith) (le_of_lt hden)
  have h10000 : (10000:ℝ) * s ^ (1 / pqm1) / 10000 = s ^ (1 / pqm1) := by ring
  rw [h10000]
  rw [max_eq_left (Real.rpow_nonneg hs0 _)]
  have hsm : (s ^ (1 / pqm1)) ^ pqm1 = s := by
    rw [← Real.rpow_mul hs0, one_div, inv_mul_cancel₀ (ne_of_gt hm1), Real.rpow_one]
  rw [hsm]
  have hne1 : pqc2 - pqc3 * t ≠ 0 := ne_of_gt hden
  have hden2 : (0:ℝ) < 1 + pqc3 * s := by
    have hc3s : 0 ≤ pqc3 * s := mul_nonneg (by norm_num [pqc3]) hs0
    linarith
  have hratio : (pqc1 + pqc2 * s) / (1 + pqc3 * s) = t := by
    rw [div_eq_iff (ne_of_gt hden2), hs_def]
    field_simp
    ring
  rw [hratio]
  exact htx

/-- Below the clamp threshold the EOTF clamps to 0 and the round trip lands
on the constant `c1 ^ m2`. -/
theorem pq_round_trip_low (x : ℝ) (hc : x ^ (1 / pqm2) < pqc1) :
    pq_oetf (pq_eotf x) = pqc1 ^ pqm2 := by
  have hm1 : (0:ℝ) < pqm1 := pqm1_pos
  unfold pq_eotf pq_oetf
  rw [max_eq_right (by linarith : x ^ (1 / pqm2) - pqc1 ≤ 0)]
  rw [zero_div, Real.zero_rpow (by positivity : 1 / pqm1 ≠ 0), mul_zero]
  rw [zero_div, max_self, Real.zero_rpow (ne_of_gt hm1)]
  norm_num

/-- The clamp constant `c1 ^ m2` is below the 1e-3 tolerance. -/
theorem pqc1_rpow_pqm2_lt : pqc1 ^ pqm2 < 1 / 1000 := by
  have h0 : (0:ℝ) < pqc1 := by norm_num [pqc1]
  have h1 : pqc1 ≤ 1 := by norm_num [pqc1]
  have hle : pqc1 ^ pqm2 ≤ pqc1 ^ (((78:ℕ):ℝ)) :=
    Real.rpow_le_rpow_of_exponent_ge h0 h1 (by norm_num [pqm2])
  have heq : pqc1 ^ (((78:ℕ):ℝ)) = pqc1 ^ (78:ℕ) := Real.rpow_natCast pqc1 78
  have hlt : pqc1 ^ (78:ℕ) < 1 / 1000 := by norm_num [pqc1]
  calc pqc1 ^ pqm2 ≤ pqc1 ^ (((78:ℕ):ℝ)) := hle
    _ = pqc1 ^ (78:ℕ) := heq
    _ < 1 / 1000 := hlt

/-- C5: for every signal value x in [0,1], `pq_oetf (pq_eotf x)` equals x to
within 1e-3 absolute tolerance — the ST 2084 OETF and EOTF with the constants
m1/m2/c1/c2/c3 of the source are numeric inverses (exactly so above the clamp
threshold `c1^m2 ≈ 7.3e-7`, and within `c1^m2 < 1e-3` below it). -/
theorem pq_round_trip (x : ℝ) (h0 : 0 ≤ x) (h1 : x ≤ 1) :
    |pq_oetf (pq_eotf x) - x| ≤ 1 / 1000 := by
  rcases le_or_lt pqc1 (x ^ (1 / pqm2)) with hc | hc
  · rw [pq_round_trip_exact x h0 h1 hc, sub_self, abs_zero]
    norm_num
  · rw [pq_round_trip_low x hc]
    have hxlt : x < pqc1 ^ pqm2 := by
      have ht0 : (0:ℝ) ≤ x ^ (1 / pqm2) := Real.rpow_nonneg h0 _
      have hlt := Real.rpow_lt_rpow ht0 hc pqm2_pos
      have htx : (x ^ (1 / pqm2)) ^ pqm2 = x := by
        rw [← Real.rpow_mul h0, one_div, inv_mul_cancel₀ (ne_of_gt pqm2_pos),
          Real.rpow_one]
      rwa [htx] at hlt
    have hb := pqc1_rpow_pqm2_lt
    rw [abs_of_nonneg (by linarith)]
    linarith

/-- C5 witness: the round trip at the concrete signal value 1. -/
theorem pq_round_trip_witness :
    (0:ℝ) ≤ 1 ∧ (1:ℝ) ≤ 1 ∧ |pq_oetf (pq_eotf 1) - 1| ≤ 1 / 1000 :=
  ⟨zero_le_one, le_refl 1, pq_round_trip 1 zero_le_one (le_refl 1)⟩
